import Mathlib

/-!
Shallow embedding of the incident deduplication core of the death-tracker
repository (scripts/death_tracker/deduplicator.py and
scripts/death_tracker/update_coordinates.py), together with proofs of the
behavioural properties stated in the specification.

Strings are modelled over their character lists; Python string operations
(`lower`, `strip`, `rstrip`, `in`, `split`) are embedded for the ASCII
strings the program manipulates.  Python floats appearing in the fuzzy
similarity computation are modelled as exact fractions; the scores involved
are small rationals, far from any binary-rounding boundary.
-/

namespace DeathTracker

/-! ## Python string primitives (ASCII model) -/

/-- The whitespace characters stripped by Python `str.strip()` (ASCII part). -/
def pyIsSpace (c : Char) : Bool :=
  c = ' ' || c = '\t' || c = '\n' || c = '\x0d' || c = '\x0b' || c = '\x0c'

/-- Python `str.lower()` (ASCII model: `Char.toLower` maps only A-Z). -/
def pyLower (s : String) : String :=
  ⟨s.data.map Char.toLower⟩

/-- Python `str.split(sep)` for a one-character separator, on the
character list (empty pieces are kept, as in Python). -/
def splitOnChar (sep : Char) : List Char → List (List Char)
  | [] => [[]]
  | c :: cs =>
    let r := splitOnChar sep cs
    if c = sep then [] :: r
    else
      match r with
      | [] => [[c]]
      | p :: ps => (c :: p) :: ps

/-- Python `s.split(sep)` for a one-character separator. -/
def pySplit (sep : Char) (s : String) : List String :=
  (splitOnChar sep s.data).map (fun l => ⟨l⟩)

/-- Python `str.strip()`: drop leading and trailing whitespace. -/
def pyStrip (s : String) : String :=
  ⟨((s.data.dropWhile pyIsSpace).reverse.dropWhile pyIsSpace).reverse⟩

/-- Python `str.rstrip("/")`: drop all trailing slashes. -/
def pyRstripSlash (s : String) : String :=
  ⟨(s.data.reverse.dropWhile (fun c => c = '/')).reverse⟩

/-- `leadMatch p l` is true when `p` occurs at the head of `l`. -/
def leadMatch : List Char → List Char → Bool
  | [], _ => true
  | _ :: _, [] => false
  | p :: ps, x :: xs => p = x && leadMatch ps xs

/-- `containsSub p l` is true when `p` occurs contiguously anywhere in `l`. -/
def containsSub (p : List Char) : List Char → Bool
  | [] => p.isEmpty
  | c :: xs => leadMatch p (c :: xs) || containsSub p xs

/-- Python substring test `sub in s`. -/
def pyIn (sub s : String) : Bool :=
  containsSub sub.data s.data

/-- Digit test for a character list (Python `\d` over ASCII). -/
def allDigits (l : List Char) : Bool :=
  l.all (fun c => '0' ≤ c && c ≤ '9')

/-- Decimal value of a digit list. -/
def digitsToNat (l : List Char) : Nat :=
  l.foldl (fun acc c => 10 * acc + (c.toNat - 48)) 0

/-! ## Calendar dates (`datetime.date`) -/

/-- A Python `datetime.date` value (year ≥ 1, validated month/day). -/
structure PyDate where
  year : Nat
  month : Nat
  day : Nat
deriving DecidableEq, Repr

/-- Gregorian leap-year rule used by `datetime`. -/
def isLeapYear (y : Nat) : Bool :=
  y % 4 = 0 && (y % 100 ≠ 0 || y % 400 = 0)

/-- Length of month `m` in year `y`. -/
def daysInMonth (y m : Nat) : Nat :=
  if m = 2 then (if isLeapYear y then 29 else 28)
  else if m = 4 ∨ m = 6 ∨ m = 9 ∨ m = 11 then 30
  else 31

/-- Days in year `y` strictly before month `m`. -/
def daysBeforeMonth (y m : Nat) : Nat :=
  (List.range (m - 1)).foldl (fun acc i => acc + daysInMonth y (i + 1)) 0

/-- Python `date.toordinal()`: day count with 0001-01-01 ↦ 1. -/
def PyDate.toOrdinal (d : PyDate) : Nat :=
  let py := d.year - 1
  365 * py + py / 4 - py / 100 + py / 400 + daysBeforeMonth d.year d.month + d.day

/-- `abs((a - b).days)` for two dates, as in the matching code. -/
def dateDiffDays (a b : PyDate) : Nat :=
  ((a.toOrdinal : Int) - (b.toOrdinal : Int)).natAbs

/-- Zero-padded two-digit rendering used by `strftime` `%m` / `%d`. -/
def pad2 (n : Nat) : String :=
  if n < 10 then "0" ++ toString n else toString n

/-- Python `date.strftime("%m/%d/%Y")` (years of the data are four-digit). -/
def strftimeMDY (d : PyDate) : String :=
  pad2 d.month ++ "/" ++ pad2 d.day ++ "/" ++ toString d.year

/-! ## fuzzywuzzy similarity (difflib `SequenceMatcher` backend)

`fuzz.ratio` / `fuzz.partial_ratio` from the `fuzzywuzzy` package, in its
pure-Python configuration, delegate to `difflib.SequenceMatcher`.  For the
short strings compared here (`autojunk` only affects strings of length
≥ 200) the matcher is the plain longest-matching-block recursion below. -/

/-- Length of the common prefix of two character lists. -/
def commonRun : List Char → List Char → Nat
  | a :: as, b :: bs => if a = b then commonRun as bs + 1 else 0
  | _, _ => 0

/-- `SequenceMatcher.find_longest_match` over the full ranges: the longest
matching block `(i, j, size)`, ties broken by least `i`, then least `j`
(difflib: earliest in `a`, then earliest in `b`). -/
def flm (a b : List Char) : Nat × Nat × Nat :=
  (List.range a.length).foldl (fun best i =>
    (List.range b.length).foldl (fun best j =>
      let k := commonRun (a.drop i) (b.drop j)
      if k > best.2.2 then (i, j, k) else best) best) (0, 0, 0)

/-- Recursive block collection of `SequenceMatcher.get_matching_blocks`
(without the size-0 terminator).  The fuel bounds the recursion depth; a
fuel of `a.length + 1` always suffices because each recursive call strictly
shrinks the first list. -/
def mBlocksAux : Nat → List Char → List Char → Nat → Nat → List (Nat × Nat × Nat)
  | 0, _, _, _, _ => []
  | fuel + 1, a, b, oa, ob =>
    let r := flm a b
    let i := r.1
    let j := r.2.1
    let k := r.2.2
    if k = 0 then []
    else
      mBlocksAux fuel (a.take i) (b.take j) oa ob
        ++ [(oa + i, ob + j, k)]
        ++ mBlocksAux fuel (a.drop (i + k)) (b.drop (j + k)) (oa + i + k) (ob + j + k)

/-- `SequenceMatcher.get_matching_blocks`, including the terminator block.
(difflib additionally merges adjacent blocks; merging changes neither the
total matched size nor the `j - i` offsets used by `partial_ratio`.) -/
def matchingBlocks (a b : List Char) : List (Nat × Nat × Nat) :=
  mBlocksAux (a.length + 1) a b 0 0 ++ [(a.length, b.length, 0)]

/-- Total number of matched characters (`M` in difflib's ratio `2M/T`). -/
def matchSum (a b : List Char) : Nat :=
  (matchingBlocks a b).foldl (fun acc x => acc + x.2.2) 0

/-- Python `round()` on the nonnegative rational `num / den`:
round-half-to-even. -/
def roundHalfEven (num den : Nat) : Nat :=
  let q := num / den
  let r := num % den
  if 2 * r < den then q
  else if 2 * r > den then q + 1
  else if q % 2 = 0 then q else q + 1

/-- `SequenceMatcher.ratio()` scaled to 0-100 and rounded as by
`fuzzywuzzy.utils.intr`: `int(round(100 * 2M/T))`; difflib returns `1.0`
when both strings are empty. -/
def seqMatchScore (a b : List Char) : Nat :=
  let t := a.length + b.length
  if t = 0 then 100 else roundHalfEven (200 * matchSum a b) t

/-- `fuzz.ratio` on strings. -/
def fuzzRatioFull (s1 s2 : String) : Nat :=
  seqMatchScore s1.data s2.data

/-- `SequenceMatcher.ratio()` as an exact nonnegative fraction
`(numerator, denominator)` with positive denominator. -/
def simFrac (a b : List Char) : Nat × Nat :=
  let t := a.length + b.length
  if t = 0 then (1, 1) else (2 * matchSum a b, t)

/-- Strict comparison of two nonnegative fractions by cross-multiplication. -/
def fracLt (x y : Nat × Nat) : Bool :=
  x.1 * y.2 < y.1 * x.2

/-- `int(round(100 * q))` for a fraction `q`. -/
def intrFrac (q : Nat × Nat) : Nat :=
  roundHalfEven (100 * q.1) q.2

/-- `fuzz.partial_ratio`: align the shorter string against the candidate
substrings of the longer one induced by the matching blocks (including the
terminator block); return 100 as soon as an alignment scores above 0.995,
else the rounded maximum. -/
def fuzzRatioPart (s1 s2 : String) : Nat :=
  let p := if s1.length ≤ s2.length then (s1.data, s2.data) else (s2.data, s1.data)
  let shorter := p.1
  let longer := p.2
  let blocks := matchingBlocks shorter longer
  let scores := blocks.map (fun blk =>
    let st := blk.2.1 - blk.1
    let sub := (longer.drop st).take shorter.length
    simFrac shorter sub)
  if scores.any (fun r => fracLt (995, 1000) r) then 100
  else intrFrac (scores.foldl (fun m x => if fracLt m x then x else m) (0, 1))

/-! ## deduplicator.py -/

/-- `IncidentRecord` (deduplicator.py).  Python optional-string fields are
`Option String`; `from_sheet_record` always fills the string fields with
(possibly empty) strings, and Python truthiness treats `None` and `""`
alike. -/
structure IncidentRecord where
  incident_date : Option PyDate
  location_city : Option String
  location_full : Option String
  victim_name : Option String
  source_urls : List String
  row_number : Option Int
deriving DecidableEq, Repr

/-- `MatchResult` (deduplicator.py). -/
structure MatchResult where
  is_match : Bool
  match_type : String
  matched_record : Option IncidentRecord
  match_score : Int
  match_factors : List String
deriving DecidableEq, Repr

/-- Python truthiness of an `Optional[str]` (`None` and `""` are falsy). -/
def truthyStr : Option String → Bool
  | none => false
  | some s => !s.isEmpty

/-- A raw sheet row as consumed by `IncidentRecord.from_sheet_record`:
`record.get(key, "")` lookups of the keys actually read, with `""` standing
for an absent key. -/
structure RawRecord where
  date : String
  location : String
  full_location : String
  name : String
  source : String
  row_number : Option Int
deriving DecidableEq, Repr

/-- Month field of CPython `_strptime` `%m`: one or two digits, value 1-12. -/
def validMonthField (p : String) : Bool :=
  allDigits p.data && (p.length = 1 || p.length = 2)
    && decide (1 ≤ digitsToNat p.data) && decide (digitsToNat p.data ≤ 12)

/-- Day field of CPython `_strptime` `%d`: one or two digits, value 1-31. -/
def validDayField (p : String) : Bool :=
  allDigits p.data && (p.length = 1 || p.length = 2)
    && decide (1 ≤ digitsToNat p.data) && decide (digitsToNat p.data ≤ 31)

/-- `datetime.strptime(s, "%m/%d/%Y").date()`, `None` for `ValueError`:
`%Y` matches exactly four digits; the constructed date must be calendar
valid (year ≥ 1, day within the month). -/
def strptimeMDY (s : String) : Option PyDate :=
  match pySplit '/' s with
  | [m, d, y] =>
    if validMonthField m && validDayField d && allDigits y.data && y.length = 4 then
      let yn := digitsToNat y.data
      let mn := digitsToNat m.data
      let dn := digitsToNat d.data
      if 1 ≤ yn ∧ dn ≤ daysInMonth yn mn then some ⟨yn, mn, dn⟩ else none
    else none
  | _ => none

/-- `datetime.strptime(s, "%m/%d/%y").date()`: `%y` matches exactly two
digits, mapped to 2000-2068 / 1969-1999. -/
def strptimeMDy (s : String) : Option PyDate :=
  match pySplit '/' s with
  | [m, d, y] =>
    if validMonthField m && validDayField d && allDigits y.data && y.length = 2 then
      let y2 := digitsToNat y.data
      let yn := if y2 ≤ 68 then 2000 + y2 else 1900 + y2
      let mn := digitsToNat m.data
      let dn := digitsToNat d.data
      if dn ≤ daysInMonth yn mn then some ⟨yn, mn, dn⟩ else none
    else none
  | _ => none

/-- `IncidentRecord.from_sheet_record`: parse the date with format
`%m/%d/%Y`, falling back to `%m/%d/%y`, leaving `None` on failure; split
the `Source` field on commas, strip each piece, drop empty pieces. -/
def IncidentRecord.from_sheet_record (record : RawRecord) : IncidentRecord :=
  let incident_date :=
    if record.date ≠ "" then
      match strptimeMDY record.date with
      | some dt => some dt
      | none => strptimeMDy record.date
    else none
  let source_urls :=
    ((pySplit ',' record.source).map pyStrip).filter (fun s => !s.isEmpty)
  { incident_date := incident_date
    location_city := some record.location
    location_full := some record.full_location
    victim_name := some record.name
    source_urls := source_urls
    row_number := record.row_number }

/-- `Deduplicator` state after `__init__` (records already normalized). -/
structure Deduplicator where
  existing_records : List IncidentRecord
  date_tolerance : Int
  name_threshold : Int
  location_threshold : Int
deriving DecidableEq, Repr

/-- `Deduplicator.__init__`.  The constructor body only converts the raw
rows and stores the three thresholds; it contains no validation and no
`raise`, which the `Except` result makes observable. -/
def Deduplicator.init (existing_records : List RawRecord) (date_tolerance : Int)
    (name_threshold : Int) (location_threshold : Int) : Except String Deduplicator :=
  Except.ok
    { existing_records := existing_records.map IncidentRecord.from_sheet_record
      date_tolerance := date_tolerance
      name_threshold := name_threshold
      location_threshold := location_threshold }

/-- Date contribution of `find_match`: +25 on an exact date, else +15. -/
def dateFactor (date_diff : Nat) : Int :=
  if date_diff = 0 then 25 else 15

/-- Name contribution of `find_match`: +50 when the full ratio clears
`name_threshold`, else +35 when the full ratio is ≥ 70 and the partial
ratio is ≥ 90, else 0. -/
def nameFactor (name_threshold : Int) (nsim psim : Nat) : Int :=
  if (nsim : Int) ≥ name_threshold then 50
  else if 70 ≤ nsim ∧ 90 ≤ psim then 35
  else 0

/-- Audit-trail entries produced alongside `nameFactor`. -/
def nameTrace (name_threshold : Int) (nsim psim : Nat) : List String :=
  if (nsim : Int) ≥ name_threshold then ["name(" ++ toString nsim ++ "%)"]
  else if 70 ≤ nsim ∧ 90 ≤ psim then ["name_partial(" ++ toString psim ++ "%)"]
  else []

/-- City contribution of `find_match`. -/
def cityFactor (location_threshold : Int) (csim : Nat) : Int :=
  if (csim : Int) ≥ location_threshold then 30 else 0

/-- Full-location contribution of `find_match`. -/
def fullLocFactor (location_threshold : Int) (lsim : Nat) : Int :=
  if (lsim : Int) ≥ location_threshold then 20 else 0

/-- The two name similarities of `find_match`: `fuzz.ratio` on the
lower-cased stripped names and `fuzz.partial_ratio` on the lower-cased
names.  (The source computes the partial ratio lazily, only when
`70 ≤ nsim < name_threshold`; both functions are pure, so computing it
eagerly is observationally identical.) -/
def nameSims (a b : String) : Nat × Nat :=
  (fuzzRatioFull (pyStrip (pyLower a)) (pyStrip (pyLower b)),
   fuzzRatioPart (pyLower a) (pyLower b))

/-- Score and factor trace of one `find_match` candidate pair whose date
difference `date_diff` already passed the tolerance gate. -/
def scorePair (d : Deduplicator) (newi exist : IncidentRecord) (date_diff : Nat) :
    Int × List String :=
  let base := dateFactor date_diff
  let np :=
    if truthyStr newi.victim_name && truthyStr exist.victim_name then
      let s := nameSims (newi.victim_name.getD "") (exist.victim_name.getD "")
      (nameFactor d.name_threshold s.1 s.2, nameTrace d.name_threshold s.1 s.2)
    else ((0 : Int), ([] : List String))
  let cp :=
    if truthyStr newi.location_city && truthyStr exist.location_city then
      let csim := fuzzRatioFull (pyStrip (pyLower (newi.location_city.getD "")))
        (pyStrip (pyLower (exist.location_city.getD "")))
      (cityFactor d.location_threshold csim,
       if (csim : Int) ≥ d.location_threshold then ["city(" ++ toString csim ++ "%)"]
       else [])
    else ((0 : Int), ([] : List String))
  let lp :=
    if truthyStr newi.location_full && truthyStr exist.location_full then
      let lsim := fuzzRatioPart (pyLower (newi.location_full.getD ""))
        (pyLower (exist.location_full.getD ""))
      (fullLocFactor d.location_threshold lsim,
       if (lsim : Int) ≥ d.location_threshold then ["location(" ++ toString lsim ++ "%)"]
       else [])
    else ((0 : Int), ([] : List String))
  (base + np.1 + cp.1 + lp.1, ["date"] ++ np.2 ++ cp.2 ++ lp.2)

/-- The candidate accumulation loop of `find_match`: skip existing records
without a date or beyond the tolerance; keep `(record, score, factors)`
when the score reaches 40. -/
def candidateList (d : Deduplicator) (newi : IncidentRecord) (nd : PyDate) :
    List IncidentRecord → List (IncidentRecord × Int × List String)
  | [] => []
  | exist :: rest =>
    match exist.incident_date with
    | none => candidateList d newi nd rest
    | some ed =>
      if (dateDiffDays nd ed : Int) > d.date_tolerance then candidateList d newi nd rest
      else if 40 ≤ (scorePair d newi exist (dateDiffDays nd ed)).1 then
        (exist, scorePair d newi exist (dateDiffDays nd ed)) :: candidateList d newi nd rest
      else candidateList d newi nd rest

/-- Python `max(candidates, key=lambda x: x[1])`: first element of maximal
score (`max` replaces the current best only on a strictly larger key). -/
def bestCandidate :
    List (IncidentRecord × Int × List String) → Option (IncidentRecord × Int × List String)
  | [] => none
  | c :: rest => some (rest.foldl (fun best x => if x.2.1 > best.2.1 then x else best) c)

/-- Match-type classification of `find_match`.  The source tests
`"name" in str(factors)`; since `"name"` contains no quote, comma or
space, it occurs in the printed list exactly when it occurs in some
element. -/
def classifyMatch (score : Int) (factors : List String) : String :=
  if 70 ≤ score then "exact"
  else if factors.any (fun f => pyIn "name" f) then "date_name"
  else "date_location"

/-- `Deduplicator.find_match`. -/
def Deduplicator.find_match (d : Deduplicator) (new_incident : IncidentRecord) :
    MatchResult :=
  match new_incident.incident_date with
  | none =>
    { is_match := false
      match_type := "no_match"
      matched_record := none
      match_score := 0
      match_factors := ["missing_date"] }
  | some nd =>
    match bestCandidate (candidateList d new_incident nd d.existing_records) with
    | none =>
      { is_match := false
        match_type := "no_match"
        matched_record := none
        match_score := 0
        match_factors := [] }
    | some c =>
      { is_match := true
        match_type := classifyMatch c.2.1 c.2.2
        matched_record := some c.1
        match_score := c.2.1
        match_factors := c.2.2 }

/-- URL normalization of `check_url_exists` / `merge_sources`:
`url.lower().strip().rstrip("/")`. -/
def normUrl (url : String) : String :=
  pyRstripSlash (pyStrip (pyLower url))

/-- The scan loop of `check_url_exists`: first record one of whose source
URLs normalizes to the given normalized URL. -/
def findUrlIn : List IncidentRecord → String → Option IncidentRecord
  | [], _ => none
  | r :: rest, nu =>
    if r.source_urls.any (fun u => normUrl u == nu) then some r else findUrlIn rest nu

/-- `Deduplicator.check_url_exists`. -/
def Deduplicator.check_url_exists (d : Deduplicator) (url : String) :
    Option IncidentRecord :=
  findUrlIn d.existing_records (normUrl url)

/-- `Deduplicator.add_record`. -/
def Deduplicator.add_record (d : Deduplicator) (record : IncidentRecord) : Deduplicator :=
  { d with existing_records := d.existing_records ++ [record] }

/-- The deduplication loop of `merge_sources` (`seen` is the set of
normalized URLs already emitted, modelled as a list). -/
def dedupeByNorm (seen : List String) : List String → List String
  | [] => []
  | url :: rest =>
    if seen.contains (normUrl url) then dedupeByNorm seen rest
    else url :: dedupeByNorm (normUrl url :: seen) rest

/-- `Deduplicator.merge_sources`. -/
def Deduplicator.merge_sources (existing : IncidentRecord) (new_sources : List String) :
    List String :=
  dedupeByNorm [] (existing.source_urls ++ new_sources)

/-! ## update_coordinates.py -/

/-- `FRARecord` (update_coordinates.py).  The float coordinate fields are
modelled as rationals; they are not consulted by the matching functions
verified here. -/
structure FRARecord where
  incident_number : String
  incident_date : Option PyDate
  latitude : Option ℚ
  longitude : Option ℚ
  county_name : String
  state_name : String
  age_of_person : Option Int
  type_of_person : String
  time : String
  railroad_name : String
deriving DecidableEq, Repr

/-- `SheetRecord` (update_coordinates.py). -/
structure SheetRecord where
  row_number : Int
  date_str : String
  date_obj : Option PyDate
  dot_incident_num : String
  location : String
  full_location : String
  name : String
  age : String
  lat : String
  lon : String
  google_map : String
deriving DecidableEq, Repr

/-- The static `FLORIDA_COUNTY_CITIES` mapping (dict modelled as an
association list in insertion order). -/
def FLORIDA_COUNTY_CITIES : List (String × List String) :=
  [("broward", ["fort lauderdale", "hollywood", "pompano beach", "deerfield beach",
                "coral springs", "pembroke pines", "miramar", "davie", "plantation",
                "sunrise", "lauderhill", "dania beach", "hallandale", "oakland park",
                "wilton manors", "lauderdale lakes", "tamarac", "margate", "coconut creek"]),
   ("palm beach", ["west palm beach", "boca raton", "boynton beach", "delray beach",
                   "lake worth", "jupiter", "palm beach gardens", "wellington",
                   "royal palm beach", "greenacres", "riviera beach", "lantana",
                   "lake park", "mangonia park", "palm springs", "hypoluxo"]),
   ("miami-dade", ["miami", "hialeah", "miami beach", "homestead", "north miami",
                   "coral gables", "aventura", "doral", "miami gardens", "north miami beach",
                   "opa-locka", "miami shores", "sunny isles", "hallandale beach"]),
   ("brevard", ["melbourne", "palm bay", "titusville", "cocoa", "rockledge",
                "cocoa beach", "satellite beach", "indian harbour beach", "merritt island"]),
   ("orange", ["orlando", "winter park", "apopka", "ocoee", "winter garden"]),
   ("volusia", ["daytona beach", "deltona", "port orange", "ormond beach", "deland",
                "new smyrna beach", "edgewater"]),
   ("indian river", ["vero beach", "sebastian", "indian river shores", "fellsmere"]),
   ("st. lucie", ["port st. lucie", "fort pierce"]),
   ("martin", ["stuart", "jensen beach", "palm city", "indiantown"])]

/-- `location_matches_county`: after lower-casing and stripping, true when
the city is a substring of the county or vice versa, or when the city
matches (by mutual substring test) some city of a county key that is a
substring of the county. -/
def location_matches_county (city county : String) : Bool :=
  let city := pyStrip (pyLower city)
  let county := pyStrip (pyLower county)
  (pyIn city county || pyIn county city)
    || FLORIDA_COUNTY_CITIES.any (fun kv =>
         pyIn kv.1 county && kv.2.any (fun c => pyIn city c || pyIn c city))

/-- Python `int(s)` for a decimal string: optional surrounding whitespace,
optional sign, one or more digits; `none` models `ValueError`.  (Digit
group underscores are not modelled; the age fields are plain digits.) -/
def pyParseInt : String → Option Int :=
  fun s =>
    match (pyStrip s).data with
    | [] => none
    | '-' :: rest =>
      if !rest.isEmpty && allDigits rest then some (-(digitsToNat rest : Int)) else none
    | '+' :: rest =>
      if !rest.isEmpty && allDigits rest then some ((digitsToNat rest : Int)) else none
    | l =>
      if allDigits l then some ((digitsToNat l : Int)) else none

/-- Python truthiness of an `Optional[int]` (`None` and `0` are falsy). -/
def truthyInt : Option Int → Bool
  | none => false
  | some n => n != 0

/-- The age comparison guard shared by every tier of
`find_potential_matches`: `sheet_record.age` truthy, `fra.age_of_person`
truthy, and `int(sheet_record.age) == fra.age_of_person` (a `ValueError`
from `int()` is caught and counts as no match). -/
def ageMatches (sheet_record : SheetRecord) (fra : FRARecord) : Bool :=
  if !sheet_record.age.isEmpty && truthyInt fra.age_of_person then
    match pyParseInt sheet_record.age with
    | some v => fra.age_of_person == some v
    | none => false
  else false

/-- Confidence annotation of the single-exact-date (VERY HIGH) tier:
age corroboration is appended first, then location. -/
def veryHighConfidence (sheet_record : SheetRecord) (fra : FRARecord) : String :=
  let confidence := "VERY HIGH - Only FRA record on this date"
  let confidence := if ageMatches sheet_record fra then confidence ++ " + age match" else confidence
  if location_matches_county sheet_record.location fra.county_name then
    confidence ++ " + location match"
  else confidence

/-- Confidence annotation of the ambiguous-exact-date (HIGH) tier. -/
def highConfidence (sheet_record : SheetRecord) (fra : FRARecord) : String :=
  let parts := ["HIGH - Exact date match"]
  let locHit := location_matches_county sheet_record.location fra.county_name
  let parts := if locHit then parts ++ ["location match"] else parts
  let ageHit := ageMatches sheet_record fra
  let parts := if ageHit then parts ++ ["age match"] else parts
  let score : Nat := (if locHit then 2 else 0) + (if ageHit then 1 else 0)
  let confidence := String.intercalate " + " parts
  if score > 0 then
    if parts.length > 1 then "HIGH - " ++ String.intercalate " + " parts.tail else confidence
  else confidence

/-- Confidence annotation of the ±1-day (MEDIUM) tier: location
corroboration is appended first, then age. -/
def mediumConfidence (sheet_record : SheetRecord) (fra : FRARecord) (fd : PyDate) : String :=
  let confidence := "MEDIUM - Date off by 1 day (" ++ strftimeMDY fd ++ ")"
  let confidence :=
    if location_matches_county sheet_record.location fra.county_name then
      confidence ++ " + location match"
    else confidence
  if ageMatches sheet_record fra then confidence ++ " + age match" else confidence

/-- Confidence annotation of the ±3-day (LOW) tier. -/
def lowConfidence (date_diff : Nat) : String :=
  "LOW - Date off by " ++ toString date_diff ++ " days + location match"

/-- The near-date pass of `find_potential_matches`, reached only when no
government record shares the sheet record's exact date: a single loop that
emits MEDIUM entries at exactly ±1 day and LOW entries within ±3 days that
pass the county resolver. -/
def nearDatePass (sheet_record : SheetRecord) (d0 : PyDate) (fra_records : List FRARecord) :
    List (FRARecord × String) :=
  fra_records.filterMap (fun fra =>
    match fra.incident_date with
    | none => none
    | some fd =>
      let date_diff := dateDiffDays d0 fd
      if date_diff = 1 then some (fra, mediumConfidence sheet_record fra fd)
      else if date_diff ≤ 3 && location_matches_county sheet_record.location fra.county_name then
        some (fra, lowConfidence date_diff)
      else none)

/-- `find_potential_matches` (update_coordinates.py). -/
def find_potential_matches (sheet_record : SheetRecord) (fra_records : List FRARecord) :
    List (FRARecord × String) :=
  match sheet_record.date_obj with
  | none => []
  | some d0 =>
    let exact_date_matches := fra_records.filter (fun fra => fra.incident_date == some d0)
    match exact_date_matches with
    | [fra] => [(fra, veryHighConfidence sheet_record fra)]
    | [] => nearDatePass sheet_record d0 fra_records
    | fras => fras.map (fun fra => (fra, highConfidence sheet_record fra))

/-! ## Specification-side definitions and concrete scenario records -/

/-- The §4.3 scoring formula exactly as the specification words it (claim
C1), over the similarity values of the pair: 25 for an exactly equal date
else 15; +50 when both names are present and the full ratio clears
`name_threshold`, or else +35 when the full ratio is ≥ 70 and the partial
ratio is ≥ 90; +30 when both cities are present and the full ratio clears
`location_threshold`; +20 when both full locations are present and the
partial ratio clears `location_threshold`. -/
def specClaimScore (name_threshold location_threshold : Int)
    (dates_equal names_present city_present floc_present : Bool)
    (name_full name_part city_full floc_part : Nat) : Int :=
  (if dates_equal then 25 else 15)
  + (if names_present then
      (if (name_full : Int) ≥ name_threshold then 50
       else if 70 ≤ name_full ∧ 90 ≤ name_part then 35 else 0)
     else 0)
  + (if city_present then (if (city_full : Int) ≥ location_threshold then 30 else 0) else 0)
  + (if floc_present then (if (floc_part : Int) ≥ location_threshold then 20 else 0) else 0)

/-- Scenario 1 new record: date 2024-03-10, city "Boca Raton", name
"John Smith". -/
def scenario1New : IncidentRecord :=
  { incident_date := some ⟨2024, 3, 10⟩
    location_city := some "Boca Raton"
    location_full := none
    victim_name := some "John Smith"
    source_urls := []
    row_number := none }

/-- Scenario 1 existing record, identical to the new one. -/
def scenario1Existing : IncidentRecord :=
  { incident_date := some ⟨2024, 3, 10⟩
    location_city := some "Boca Raton"
    location_full := none
    victim_name := some "John Smith"
    source_urls := []
    row_number := none }

/-- A deduplicator at the default thresholds whose pool holds the
scenario 1 existing record. -/
def dedupScenario1 : Deduplicator :=
  { existing_records := [scenario1Existing]
    date_tolerance := 1
    name_threshold := 85
    location_threshold := 80 }

/-- Scenario 2 new record: date 2024-03-10, name "J. Smith", no city. -/
def scenario2New : IncidentRecord :=
  { incident_date := some ⟨2024, 3, 10⟩
    location_city := none
    location_full := none
    victim_name := some "J. Smith"
    source_urls := []
    row_number := none }

/-- Scenario 2 existing record: date 2024-03-11, name "John Smith". -/
def scenario2Existing : IncidentRecord :=
  { incident_date := some ⟨2024, 3, 11⟩
    location_city := none
    location_full := none
    victim_name := some "John Smith"
    source_urls := []
    row_number := none }

/-- A deduplicator at the default thresholds whose pool holds the
scenario 2 existing record. -/
def dedupScenario2 : Deduplicator :=
  { existing_records := [scenario2Existing]
    date_tolerance := 1
    name_threshold := 85
    location_threshold := 80 }

/-- An existing record evidenced by the URL `https://EXAMPLE.com/a/`
(scenario 5). -/
def scenario5Existing : IncidentRecord :=
  { incident_date := none
    location_city := none
    location_full := none
    victim_name := none
    source_urls := ["https://EXAMPLE.com/a/"]
    row_number := none }

/-- A deduplicator whose pool holds the scenario 5 record. -/
def dedupScenario5 : Deduplicator :=
  { existing_records := [scenario5Existing]
    date_tolerance := 1
    name_threshold := 85
    location_threshold := 80 }

/-- A raw sheet row whose Source field holds two entries that normalize to
the same value (claim C7). -/
def rawRowC7 : RawRecord :=
  { date := ""
    location := ""
    full_location := ""
    name := ""
    source := "a, A"
    row_number := none }

/-- A ledger record dated 2024-05-10 with a blank location (claims C6 and
C10). -/
def sheetC6 : SheetRecord :=
  { row_number := 2
    date_str := "05/10/2024"
    date_obj := some ⟨2024, 5, 10⟩
    dot_incident_num := ""
    location := ""
    full_location := ""
    name := ""
    age := ""
    lat := ""
    lon := ""
    google_map := "" }

/-- A government record exactly one day after `sheetC6` (claim C6). -/
def fraC6a : FRARecord :=
  { incident_number := "A"
    incident_date := some ⟨2024, 5, 11⟩
    latitude := none
    longitude := none
    county_name := "broward"
    state_name := "FLORIDA"
    age_of_person := none
    type_of_person := ""
    time := ""
    railroad_name := "Brightline Train" }

/-- A government record three days after `sheetC6` whose county passes the
resolver (claim C6). -/
def fraC6b : FRARecord :=
  { incident_number := "B"
    incident_date := some ⟨2024, 5, 13⟩
    latitude := none
    longitude := none
    county_name := "broward"
    state_name := "FLORIDA"
    age_of_person := none
    type_of_person := ""
    time := ""
    railroad_name := "Brightline Train" }

/-- An existing record ten days away from `scenario1New` (claim C2
witness). -/
def farExisting : IncidentRecord :=
  { incident_date := some ⟨2024, 3, 20⟩
    location_city := some "Boca Raton"
    location_full := none
    victim_name := some "John Smith"
    source_urls := []
    row_number := none }

/-- A deduplicator whose pool holds only `farExisting`. -/
def dedupFar : Deduplicator :=
  { existing_records := [farExisting]
    date_tolerance := 1
    name_threshold := 85
    location_threshold := 80 }

/-- A record with no incident date (claim C4 witness). -/
def datelessRecord : IncidentRecord :=
  { incident_date := none
    location_city := some "Boca Raton"
    location_full := none
    victim_name := some "John Smith"
    source_urls := []
    row_number := none }

/-- An existing record with a weakly similar name (claim C9 witness). -/
def weakNameExisting : IncidentRecord :=
  { incident_date := some ⟨2024, 3, 10⟩
    location_city := some "Boca Raton"
    location_full := none
    victim_name := some "Zz Qq"
    source_urls := []
    row_number := none }

/-- A deduplicator constructed with a negative date tolerance (claim C8
witness). -/
def dedupNegTol : Deduplicator :=
  { existing_records := [scenario1Existing]
    date_tolerance := -1
    name_threshold := 85
    location_threshold := 80 }

/-! ## Helper lemmas -/

theorem containsSub_nil (l : List Char) : containsSub [] l = true := by
  cases l <;> simp [containsSub, leadMatch]

theorem bestAux_mem (rest : List (IncidentRecord × Int × List String)) :
    ∀ x, rest.foldl (fun best x => if x.2.1 > best.2.1 then x else best) x ∈ x :: rest := by
  induction rest with
  | nil => intro x; simp
  | cons y rest ih =>
    intro x
    simp only [List.foldl_cons]
    rcases List.mem_cons.mp (ih (if y.2.1 > x.2.1 then y else x)) with h1 | h2
    · rw [h1]
      by_cases hc : y.2.1 > x.2.1
      · simp [hc]
      · simp [hc]
    · exact List.mem_cons.mpr (Or.inr (List.mem_cons.mpr (Or.inr h2)))

theorem bestCandidate_mem {l : List (IncidentRecord × Int × List String)}
    {c : IncidentRecord × Int × List String} (h : bestCandidate l = some c) : c ∈ l := by
  cases l with
  | nil => simp [bestCandidate] at h
  | cons x rest =>
    have hm := bestAux_mem rest x
    simp only [bestCandidate, Option.some.injEq] at h
    rw [h] at hm
    exact hm

theorem candidateList_cons_none {d : Deduplicator} {newi : IncidentRecord} {nd : PyDate}
    {exist : IncidentRecord} (h : exist.incident_date = none) (rest : List IncidentRecord) :
    candidateList d newi nd (exist :: rest) = candidateList d newi nd rest := by
  rw [candidateList.eq_def]; simp only [h]

theorem candidateList_cons_some {d : Deduplicator} {newi : IncidentRecord} {nd : PyDate}
    {exist : IncidentRecord} {ed : PyDate} (h : exist.incident_date = some ed)
    (rest : List IncidentRecord) :
    candidateList d newi nd (exist :: rest) =
      if (dateDiffDays nd ed : Int) > d.date_tolerance then candidateList d newi nd rest
      else if 40 ≤ (scorePair d newi exist (dateDiffDays nd ed)).1 then
        (exist, scorePair d newi exist (dateDiffDays nd ed)) :: candidateList d newi nd rest
      else candidateList d newi nd rest := by
  rw [candidateList.eq_def]; simp only [h]

theorem candidateList_mem {d : Deduplicator} {newi : IncidentRecord} {nd : PyDate} :
    ∀ {l : List IncidentRecord} {c : IncidentRecord × Int × List String},
      c ∈ candidateList d newi nd l →
      c.1 ∈ l ∧ ∃ ed, c.1.incident_date = some ed ∧
        (dateDiffDays nd ed : Int) ≤ d.date_tolerance ∧
        c.2 = scorePair d newi c.1 (dateDiffDays nd ed) ∧
        40 ≤ c.2.1 := by
  intro l
  induction l with
  | nil => intro c h; simp [candidateList] at h
  | cons exist rest ih =>
    intro c h
    unfold candidateList at h
    split at h
    · rcases ih h with ⟨h1, h2⟩
      exact ⟨List.mem_cons_of_mem _ h1, h2⟩
    · rename_i ed hed
      split at h
      · rcases ih h with ⟨h1, h2⟩
        exact ⟨List.mem_cons_of_mem _ h1, h2⟩
      · rename_i htol
        split at h
        · rename_i hsc
          rcases List.mem_cons.mp h with h1 | h1
          · subst h1
            exact ⟨List.mem_cons_self _ _, ed, hed, by omega, rfl, hsc⟩
          · rcases ih h1 with ⟨h1, h2⟩
            exact ⟨List.mem_cons_of_mem _ h1, h2⟩
        · rcases ih h with ⟨h1, h2⟩
          exact ⟨List.mem_cons_of_mem _ h1, h2⟩

theorem candidateList_mem_of {d : Deduplicator} {newi : IncidentRecord} {nd : PyDate}
    {exist : IncidentRecord} {ed : PyDate}
    (hdate : exist.incident_date = some ed)
    (htol : (dateDiffDays nd ed : Int) ≤ d.date_tolerance)
    (hscore : 40 ≤ (scorePair d newi exist (dateDiffDays nd ed)).1) :
    ∀ {l : List IncidentRecord}, exist ∈ l →
      (exist, scorePair d newi exist (dateDiffDays nd ed)) ∈ candidateList d newi nd l := by
  intro l
  induction l with
  | nil => intro h; simp at h
  | cons a rest ih =>
    intro hmem
    rcases List.mem_cons.mp hmem with h1 | h2
    · subst h1
      rw [candidateList_cons_some hdate]
      rw [if_neg (by omega)]
      rw [if_pos hscore]
      exact List.mem_cons_self _ _
    · cases hd2 : a.incident_date with
      | none => rw [candidateList_cons_none hd2]; exact ih h2
      | some ed2 =>
        rw [candidateList_cons_some hd2]
        by_cases hc : (dateDiffDays nd ed2 : Int) > d.date_tolerance
        · rw [if_pos hc]; exact ih h2
        · rw [if_neg hc]
          by_cases hs : 40 ≤ (scorePair d newi a (dateDiffDays nd ed2)).1
          · rw [if_pos hs]; exact List.mem_cons_of_mem _ (ih h2)
          · rw [if_neg hs]; exact ih h2

/-! ## Claim C2: the date-tolerance gate rejects distant pairs -/

/-- C2.  For all records A and B whose incident dates differ by more than
the configured date tolerance, `find_match` never reports them as
matching: the existing record whose date is beyond the tolerance can
never be the matched record, regardless of name/location similarity. -/
theorem C2_date_gate (d : Deduplicator) (newi r : IncidentRecord) (da db : PyDate)
    (hn : newi.incident_date = some da) (hr : r.incident_date = some db)
    (hfar : (dateDiffDays da db : Int) > d.date_tolerance) :
    (d.find_match newi).matched_record ≠ some r := by
  intro hcontra
  simp only [Deduplicator.find_match, hn] at hcontra
  cases hbc : bestCandidate (candidateList d newi da d.existing_records) with
  | none => rw [hbc] at hcontra; simp at hcontra
  | some c =>
    rw [hbc] at hcontra
    simp only [Option.some.injEq] at hcontra
    rcases candidateList_mem (bestCandidate_mem hbc) with ⟨_, ed, hdate, htol, _⟩
    rw [hcontra, hr] at hdate
    rw [Option.some.injEq] at hdate
    rw [hdate] at hfar
    omega

set_option maxRecDepth 1000000 in
/-- C2 witness: a pool record ten days away is never the matched record. -/
theorem C2_date_gate_witness :
    (dedupFar.find_match scenario1New).matched_record ≠ some farExisting :=
  C2_date_gate dedupFar scenario1New farExisting ⟨2024, 3, 10⟩ ⟨2024, 3, 20⟩
    (by decide) (by decide) (by decide)

/-! ## Claim C4: records without an incident date -/

/-- C4.  A new record without an incident date always yields the fixed
`no_match` result with factor list `["missing_date"]`; and an existing
pool record without an incident date is skipped and can never be the
matched record. -/
theorem C4_missing_date :
    (∀ (d : Deduplicator) (newi : IncidentRecord), newi.incident_date = none →
      d.find_match newi =
        { is_match := false
          match_type := "no_match"
          matched_record := none
          match_score := 0
          match_factors := ["missing_date"] }) ∧
    (∀ (d : Deduplicator) (newi r : IncidentRecord), r.incident_date = none →
      (d.find_match newi).matched_record ≠ some r) := by
  constructor
  · intro d newi h
    simp only [Deduplicator.find_match, h]
  · intro d newi r hr hcontra
    cases hn : newi.incident_date with
    | none => simp only [Deduplicator.find_match, hn] at hcontra; simp at hcontra
    | some nd =>
      simp only [Deduplicator.find_match, hn] at hcontra
      cases hbc : bestCandidate (candidateList d newi nd d.existing_records) with
      | none => rw [hbc] at hcontra; simp at hcontra
      | some c =>
        rw [hbc] at hcontra
        simp only [Option.some.injEq] at hcontra
        rcases candidateList_mem (bestCandidate_mem hbc) with ⟨_, ed, hdate, _⟩
        rw [hcontra, hr] at hdate
        simp at hdate

set_option maxRecDepth 1000000 in
/-- C4 witness: the missing-date result on a concrete dateless record, and
a concrete dateless pool record that is never matched. -/
theorem C4_missing_date_witness :
    (dedupScenario1.find_match datelessRecord =
      { is_match := false
        match_type := "no_match"
        matched_record := none
        match_score := 0
        match_factors := ["missing_date"] }) ∧
    (dedupScenario1.find_match scenario1New).matched_record ≠ some datelessRecord :=
  ⟨C4_missing_date.1 dedupScenario1 datelessRecord (by decide),
   C4_missing_date.2 dedupScenario1 scenario1New datelessRecord (by decide)⟩

/-! ## Claim C1: the composite scoring formula and the candidate gate -/

set_option maxRecDepth 1000000 in
/-- C1.  For a pair of records whose dates are both present and within the
date tolerance, the score `find_match` computes for the pair is exactly
the specification's formula (base 25/15, name +50 or else +35, city +30,
full-location +20 over the fuzzy similarity values of the pair), an
existing pool record becomes a candidate exactly when that score reaches
40, and the scenario-1 pair (identical date/city/name) yields
`is_match = true`, `match_type = "exact"` and score 105. -/
theorem C1_scoring (d : Deduplicator) (newi exist : IncidentRecord) (nd ed : PyDate)
    (_hn : newi.incident_date = some nd) (he : exist.incident_date = some ed)
    (htol : (dateDiffDays nd ed : Int) ≤ d.date_tolerance)
    (hmem : exist ∈ d.existing_records) :
    ((scorePair d newi exist (dateDiffDays nd ed)).1 =
      specClaimScore d.name_threshold d.location_threshold
        (dateDiffDays nd ed == 0)
        (truthyStr newi.victim_name && truthyStr exist.victim_name)
        (truthyStr newi.location_city && truthyStr exist.location_city)
        (truthyStr newi.location_full && truthyStr exist.location_full)
        (nameSims (newi.victim_name.getD "") (exist.victim_name.getD "")).1
        (nameSims (newi.victim_name.getD "") (exist.victim_name.getD "")).2
        (fuzzRatioFull (pyStrip (pyLower (newi.location_city.getD "")))
          (pyStrip (pyLower (exist.location_city.getD ""))))
        (fuzzRatioPart (pyLower (newi.location_full.getD ""))
          (pyLower (exist.location_full.getD "")))) ∧
    ((exist, scorePair d newi exist (dateDiffDays nd ed)) ∈
        candidateList d newi nd d.existing_records ↔
      40 ≤ (scorePair d newi exist (dateDiffDays nd ed)).1) ∧
    dedupScenario1.find_match scenario1New =
      { is_match := true
        match_type := "exact"
        matched_record := some scenario1Existing
        match_score := 105
        match_factors := ["date", "name(100%)", "city(100%)"] } := by
  refine ⟨?_, ⟨?_, ?_⟩, ?_⟩
  · cases hnm : truthyStr newi.victim_name && truthyStr exist.victim_name <;>
      cases hct : truthyStr newi.location_city && truthyStr exist.location_city <;>
        cases hfl : truthyStr newi.location_full && truthyStr exist.location_full <;>
          simp [scorePair, specClaimScore, dateFactor, nameFactor, cityFactor,
            fullLocFactor, hnm, hct, hfl, beq_iff_eq]
  · intro hmemc
    rcases candidateList_mem hmemc with ⟨_, ed2, _, _, _, hsc⟩
    exact hsc
  · intro hsc
    exact candidateList_mem_of he htol hsc hmem
  · decide

set_option maxRecDepth 1000000 in
/-- C1 witness: the theorem applied to the concrete scenario-1 pair. -/
theorem C1_scoring_witness :
    dedupScenario1.find_match scenario1New =
      { is_match := true
        match_type := "exact"
        matched_record := some scenario1Existing
        match_score := 105
        match_factors := ["date", "name(100%)", "city(100%)"] } :=
  (C1_scoring dedupScenario1 scenario1New scenario1Existing ⟨2024, 3, 10⟩ ⟨2024, 3, 10⟩
    (by decide) (by decide) (by decide) (by decide)).2.2

/-! ## Claim C3: the URL-identity check -/

theorem findUrlIn_isSome (nu : String) :
    ∀ l : List IncidentRecord,
      (findUrlIn l nu).isSome = true ↔ ∃ r ∈ l, ∃ u ∈ r.source_urls, normUrl u = nu := by
  intro l
  induction l with
  | nil => simp [findUrlIn]
  | cons r rest ih =>
    unfold findUrlIn
    by_cases h : (r.source_urls.any (fun u => normUrl u == nu)) = true
    · rw [if_pos h]
      simp only [Option.isSome_some, true_iff]
      rcases List.any_eq_true.mp h with ⟨u, hu, hequ⟩
      exact ⟨r, List.mem_cons_self _ _, u, hu, by simpa using hequ⟩
    · rw [if_neg h]
      rw [ih]
      constructor
      · rintro ⟨r2, h2, hu⟩
        exact ⟨r2, List.mem_cons_of_mem _ h2, hu⟩
      · rintro ⟨r2, h2, u, hu, hequ⟩
        rcases List.mem_cons.mp h2 with rfl | h3
        · exact absurd (List.any_eq_true.mpr ⟨u, hu, by simpa using hequ⟩) h
        · exact ⟨r2, h3, u, hu, hequ⟩

set_option maxRecDepth 1000000 in
/-- C3 counterexample: the two scenario-5 identifiers normalize to
different strings (the query string is not stripped), and the URL-identity
check does not link them: with `https://EXAMPLE.com/a/` in the pool,
looking up `https://example.com/a?utm_source=x` finds nothing. -/
theorem C3_counterexample :
    normUrl "https://example.com/a?utm_source=x" ≠ normUrl "https://EXAMPLE.com/a/" ∧
    dedupScenario5.check_url_exists "https://example.com/a?utm_source=x" = none := by
  decide

/-- C3 as amended.  `check_url_exists` reports a hit exactly when some
existing record holds an identifier equal to the probe after lower-casing,
trimming whitespace and stripping trailing slashes — whatever the other
fields hold.  (The scenario-5 pair of identifiers is not an instance: their
normal forms differ, since query strings are not stripped.) -/
theorem C3_url_identity (d : Deduplicator) (url : String) :
    (d.check_url_exists url).isSome = true ↔
      ∃ r ∈ d.existing_records, ∃ u ∈ r.source_urls, normUrl u = normUrl url :=
  findUrlIn_isSome (normUrl url) d.existing_records

set_option maxRecDepth 1000000 in
/-- C3 witness: the characterization instantiated on the scenario-5 pool. -/
theorem C3_url_identity_witness :
    (dedupScenario5.check_url_exists "https://example.com/a").isSome = true ↔
      ∃ r ∈ dedupScenario5.existing_records, ∃ u ∈ r.source_urls,
        normUrl u = normUrl "https://example.com/a" :=
  C3_url_identity dedupScenario5 "https://example.com/a"

/-! ## Claim C5: scenario 2 ("J. Smith" vs "John Smith" one day apart) -/

set_option maxRecDepth 1000000 in
/-- C5 counterexample: on the scenario-2 pair `find_match` reports no
match, where the claim asserts `is_match = true` with score 50. -/
theorem C5_counterexample :
    (dedupScenario2.find_match scenario2New).is_match = false := by
  decide

set_option maxRecDepth 1000000 in
/-- C5 as amended.  On the scenario-2 pair the name full-ratio is 78
(above the 70 secondary gate, below the 85 threshold), so the partial
ratio is consulted; it is 75, below 90, so the name contributes nothing;
the total score is the 15 date points, below the 40 candidate gate, and
`find_match` returns the empty no-match result. -/
theorem C5_scenario2 :
    fuzzRatioFull (pyStrip (pyLower "J. Smith")) (pyStrip (pyLower "John Smith")) = 78 ∧
    fuzzRatioPart (pyLower "J. Smith") (pyLower "John Smith") = 75 ∧
    (scorePair dedupScenario2 scenario2New scenario2Existing
      (dateDiffDays ⟨2024, 3, 10⟩ ⟨2024, 3, 11⟩)).1 = 15 ∧
    dedupScenario2.find_match scenario2New =
      { is_match := false
        match_type := "no_match"
        matched_record := none
        match_score := 0
        match_factors := [] } := by
  refine ⟨by decide, by decide, by decide, by decide⟩

/-! ## Claim C9: monotonicity of the name factor -/

theorem nameFactor_mono (thr : Int) {n1 p1 n2 p2 : Nat} (hn : n1 ≤ n2) (hp : p1 ≤ p2) :
    nameFactor thr n1 p1 ≤ nameFactor thr n2 p2 := by
  unfold nameFactor
  split_ifs <;> omega

/-- C9.  Holding the date and both location fields fixed, improving the
name similarity — the pair of full-ratio and partial-ratio values,
compared pointwise — never decreases the composite score `find_match`
computes for the pair. -/
theorem C9_name_monotonicity (d : Deduplicator) (newi e1 e2 : IncidentRecord) (dd : Nat)
    (ht0 : truthyStr newi.victim_name = true)
    (ht1 : truthyStr e1.victim_name = true)
    (ht2 : truthyStr e2.victim_name = true)
    (hcity : e1.location_city = e2.location_city)
    (hfull : e1.location_full = e2.location_full)
    (hfr : (nameSims (newi.victim_name.getD "") (e1.victim_name.getD "")).1 ≤
           (nameSims (newi.victim_name.getD "") (e2.victim_name.getD "")).1)
    (hpr : (nameSims (newi.victim_name.getD "") (e1.victim_name.getD "")).2 ≤
           (nameSims (newi.victim_name.getD "") (e2.victim_name.getD "")).2) :
    (scorePair d newi e1 dd).1 ≤ (scorePair d newi e2 dd).1 := by
  have hmono := nameFactor_mono d.name_threshold hfr hpr
  simp only [scorePair, ht0, ht1, ht2, hcity, hfull, Bool.and_self, Bool.true_and,
    if_true]
  linarith

set_option maxRecDepth 1000000 in
/-- C9 witness: replacing a weakly similar name by an identical one (all
other fields equal) does not decrease the score of the concrete pair. -/
theorem C9_name_monotonicity_witness :
    (scorePair dedupScenario1 scenario1New weakNameExisting 0).1 ≤
      (scorePair dedupScenario1 scenario1New scenario1Existing 0).1 :=
  C9_name_monotonicity dedupScenario1 scenario1New weakNameExisting scenario1Existing 0
    (by decide) (by decide) (by decide) (by decide) (by decide) (by decide) (by decide)

/-! ## Claim C6: tiers of the geographic co-location resolver -/

theorem find_potential_matches_no_exact {s : SheetRecord} {d0 : PyDate}
    {fras : List FRARecord} (hd : s.date_obj = some d0)
    (hne : fras.filter (fun f => f.incident_date == some d0) = []) :
    find_potential_matches s fras = nearDatePass s d0 fras := by
  simp only [find_potential_matches, hd, hne]

theorem mem_nearDatePass_medium {s : SheetRecord} {d0 : PyDate} {fras : List FRARecord}
    {fra : FRARecord} {fd : PyDate}
    (hmem : fra ∈ fras) (hfd : fra.incident_date = some fd)
    (h1 : dateDiffDays d0 fd = 1) :
    (fra, mediumConfidence s fra fd) ∈ nearDatePass s d0 fras := by
  unfold nearDatePass
  refine List.mem_filterMap.mpr ⟨fra, hmem, ?_⟩
  rw [hfd]
  simp [h1]

theorem mem_nearDatePass_low {s : SheetRecord} {d0 : PyDate} {fras : List FRARecord}
    {fra : FRARecord} {fd : PyDate}
    (hmem : fra ∈ fras) (hfd : fra.incident_date = some fd)
    (h2 : 2 ≤ dateDiffDays d0 fd) (h3 : dateDiffDays d0 fd ≤ 3)
    (hloc : location_matches_county s.location fra.county_name = true) :
    (fra, lowConfidence (dateDiffDays d0 fd)) ∈ nearDatePass s d0 fras := by
  unfold nearDatePass
  refine List.mem_filterMap.mpr ⟨fra, hmem, ?_⟩
  rw [hfd]
  have hne1 : dateDiffDays d0 fd ≠ 1 := by omega
  simp [hne1, h3, hloc]

set_option maxRecDepth 1000000 in
/-- C6 counterexample: with one government record at +1 day and another at
+3 days with a passing county, the resolver returns BOTH a MEDIUM and a
LOW entry in a single pass, where the claim asserts that ±3-day LOW
entries appear only when no ±1-day record exists. -/
theorem C6_counterexample :
    find_potential_matches sheetC6 [fraC6a, fraC6b] =
      [(fraC6a, "MEDIUM - Date off by 1 day (05/11/2024) + location match"),
       (fraC6b, "LOW - Date off by 3 days + location match")] := by
  decide

/-- C6 as amended.  When no government record shares the exact date, the
±1-day and ±3-day tiers are evaluated in one pass over the government
records: every record at exactly ±1 day is returned with a MEDIUM
confidence annotated with corroborating location/age, and every record 2-3
days away that passes the county resolver is returned with a LOW
confidence — even when ±1-day records exist. -/
theorem C6_tiering (s : SheetRecord) (d0 : PyDate) (fras : List FRARecord)
    (fra : FRARecord) (fd : PyDate)
    (hd : s.date_obj = some d0)
    (hne : fras.filter (fun f => f.incident_date == some d0) = [])
    (hmem : fra ∈ fras) (hfd : fra.incident_date = some fd) :
    (dateDiffDays d0 fd = 1 →
      (fra, mediumConfidence s fra fd) ∈ find_potential_matches s fras) ∧
    (2 ≤ dateDiffDays d0 fd → dateDiffDays d0 fd ≤ 3 →
      location_matches_county s.location fra.county_name = true →
      (fra, lowConfidence (dateDiffDays d0 fd)) ∈ find_potential_matches s fras) := by
  rw [find_potential_matches_no_exact hd hne]
  exact ⟨fun h1 => mem_nearDatePass_medium hmem hfd h1,
         fun h2 h3 hloc => mem_nearDatePass_low hmem hfd h2 h3 hloc⟩

set_option maxRecDepth 1000000 in
/-- C6 witness: both tiers instantiated on the concrete records. -/
theorem C6_tiering_witness :
    (fraC6a, mediumConfidence sheetC6 fraC6a ⟨2024, 5, 11⟩) ∈
      find_potential_matches sheetC6 [fraC6a, fraC6b] ∧
    (fraC6b, lowConfidence (dateDiffDays ⟨2024, 5, 10⟩ ⟨2024, 5, 13⟩)) ∈
      find_potential_matches sheetC6 [fraC6a, fraC6b] :=
  ⟨(C6_tiering sheetC6 ⟨2024, 5, 10⟩ [fraC6a, fraC6b] fraC6a ⟨2024, 5, 11⟩
      (by decide) (by decide) (by decide) (by decide)).1 (by decide),
   (C6_tiering sheetC6 ⟨2024, 5, 10⟩ [fraC6a, fraC6b] fraC6b ⟨2024, 5, 13⟩
      (by decide) (by decide) (by decide) (by decide)).2 (by decide) (by decide) (by decide)⟩

/-! ## Claim C7: normalized uniqueness of source identifiers -/

set_option maxRecDepth 1000000 in
/-- C7 counterexample: `from_sheet_record` performs no deduplication, so a
raw Source field "a, A" yields the identifier list `["a", "A"]`, whose two
entries normalize to the same value. -/
theorem C7_counterexample :
    (IncidentRecord.from_sheet_record rawRowC7).source_urls = ["a", "A"] ∧
    normUrl "a" = normUrl "A" := by
  decide

theorem dedupeByNorm_spec :
    ∀ (l seen : List String),
      (dedupeByNorm seen l).Pairwise (fun u v => normUrl u ≠ normUrl v) ∧
      ∀ u ∈ dedupeByNorm seen l, normUrl u ∉ seen := by
  intro l
  induction l with
  | nil =>
    intro seen
    exact ⟨List.Pairwise.nil, by intro u hu; simp [dedupeByNorm] at hu⟩
  | cons url rest ih =>
    intro seen
    unfold dedupeByNorm
    by_cases h : normUrl url ∈ seen
    · rw [if_pos (by simpa [List.contains, List.elem_iff] using h)]
      exact ih seen
    · rw [if_neg (by simpa [List.contains, List.elem_iff] using h)]
      rcases ih (normUrl url :: seen) with ⟨hpw, hnotin⟩
      refine ⟨List.Pairwise.cons ?_ hpw, ?_⟩
      · intro v hv hequ
        exact hnotin v hv (by rw [← hequ]; exact List.mem_cons_self _ _)
      · intro u hu
        rcases List.mem_cons.mp hu with rfl | h2
        · exact h
        · exact fun hc => hnotin u h2 (List.mem_cons_of_mem _ hc)

/-- C7 as amended.  The list returned by `merge_sources` never holds two
entries that normalize (lower-cased, trimmed, trailing slashes stripped) to
the same value; `from_sheet_record`, by contrast, only splits, trims and
drops empty pieces, and performs no deduplication. -/
theorem C7_merge_sources_dedup (existing : IncidentRecord) (new_sources : List String) :
    (Deduplicator.merge_sources existing new_sources).Pairwise
      (fun u v => normUrl u ≠ normUrl v) :=
  (dedupeByNorm_spec (existing.source_urls ++ new_sources) []).1

/-- C7 witness: the merge-sources invariant on a concrete list with a
normalized duplicate. -/
theorem C7_merge_sources_dedup_witness :
    (Deduplicator.merge_sources scenario5Existing ["x", "X/"]).Pairwise
      (fun u v => normUrl u ≠ normUrl v) :=
  C7_merge_sources_dedup scenario5Existing ["x", "X/"]

/-! ## Claim C8: no construction-time validation -/

theorem candidateList_nil_of_neg_tol {d : Deduplicator} (hneg : d.date_tolerance < 0)
    (newi : IncidentRecord) (nd : PyDate) :
    ∀ l, candidateList d newi nd l = [] := by
  intro l
  induction l with
  | nil => rfl
  | cons a rest ih =>
    cases hd2 : a.incident_date with
    | none => rw [candidateList_cons_none hd2, ih]
    | some ed => rw [candidateList_cons_some hd2, if_pos (by omega), ih]

/-- C8 counterexample: constructing the engine with a negative date
tolerance succeeds (the constructor body contains no validation and no
raise), where the claim asserts that the constructor raises. -/
theorem C8_counterexample :
    Deduplicator.init [] (-1) 85 80 =
      Except.ok
        { existing_records := []
          date_tolerance := -1
          name_threshold := 85
          location_threshold := 80 } := rfl

/-- C8 as amended.  The `Deduplicator` constructor performs no
configuration validation: it always succeeds, storing the given tolerance
and thresholds unchanged; with a negative date tolerance the engine then
simply proceeds, `find_match` rejecting every pair at the date gate. -/
theorem C8_no_validation :
    (∀ (records : List RawRecord) (dt nt lt : Int),
      Deduplicator.init records dt nt lt =
        Except.ok
          { existing_records := records.map IncidentRecord.from_sheet_record
            date_tolerance := dt
            name_threshold := nt
            location_threshold := lt }) ∧
    (∀ (d : Deduplicator) (newi : IncidentRecord) (nd : PyDate),
      d.date_tolerance < 0 → newi.incident_date = some nd →
      d.find_match newi =
        { is_match := false
          match_type := "no_match"
          matched_record := none
          match_score := 0
          match_factors := [] }) := by
  constructor
  · intro records dt nt lt; rfl
  · intro d newi nd hneg hdate
    simp only [Deduplicator.find_match, hdate]
    rw [candidateList_nil_of_neg_tol hneg newi nd d.existing_records]
    rfl

set_option maxRecDepth 1000000 in
/-- C8 witness: the two parts instantiated on concrete inputs with a
negative tolerance. -/
theorem C8_no_validation_witness :
    (Deduplicator.init [] (-1) 85 80 =
      Except.ok
        { existing_records := []
          date_tolerance := -1
          name_threshold := 85
          location_threshold := 80 }) ∧
    dedupNegTol.find_match scenario1New =
      { is_match := false
        match_type := "no_match"
        matched_record := none
        match_score := 0
        match_factors := [] } :=
  ⟨C8_no_validation.1 [] (-1) 85 80,
   C8_no_validation.2 dedupNegTol scenario1New ⟨2024, 3, 10⟩ (by decide) (by decide)⟩

/-! ## Claim C10: a blank city passes the county resolver -/

/-- C10.  The empty city string is a substring of every county string, so
`location_matches_county "" county` is true for every county; consequently
a ledger record with a blank location passes the county-resolver gate
against every government record, in particular in the ±3-day LOW tier. -/
theorem C10_blank_city :
    (∀ county : String, location_matches_county "" county = true) ∧
    (∀ (s : SheetRecord) (d0 : PyDate) (fras : List FRARecord) (fra : FRARecord) (fd : PyDate),
      s.location = "" → s.date_obj = some d0 →
      fras.filter (fun f => f.incident_date == some d0) = [] →
      fra ∈ fras → fra.incident_date = some fd →
      2 ≤ dateDiffDays d0 fd → dateDiffDays d0 fd ≤ 3 →
      (fra, lowConfidence (dateDiffDays d0 fd)) ∈ find_potential_matches s fras) := by
  have hblank : ∀ county : String, location_matches_county "" county = true := by
    intro county
    unfold location_matches_county pyIn
    have hc : containsSub (pyStrip (pyLower "")).data (pyStrip (pyLower county)).data = true := by
      have he : (pyStrip (pyLower "")).data = [] := rfl
      rw [he]
      exact containsSub_nil _
    simp [hc]
  refine ⟨hblank, ?_⟩
  intro s d0 fras fra fd hloc hd hne hmem hfd h2 h3
  rw [find_potential_matches_no_exact hd hne]
  apply mem_nearDatePass_low hmem hfd h2 h3
  rw [hloc]
  exact hblank fra.county_name

set_option maxRecDepth 1000000 in
/-- C10 witness: the blank-location ledger record passes the resolver for
a concrete county and receives the concrete LOW entry at +3 days. -/
theorem C10_blank_city_witness :
    location_matches_county "" "broward" = true ∧
    (fraC6b, lowConfidence (dateDiffDays ⟨2024, 5, 10⟩ ⟨2024, 5, 13⟩)) ∈
      find_potential_matches sheetC6 [fraC6b] :=
  ⟨C10_blank_city.1 "broward",
   C10_blank_city.2 sheetC6 ⟨2024, 5, 10⟩ [fraC6b] fraC6b ⟨2024, 5, 13⟩ (by decide)
     (by decide) (by decide) (by decide) (by decide) (by decide) (by decide)⟩

end DeathTracker
